import Mathlib

/-!
# Verification of the crop prediction-blending and recommendation core

Shallow embedding of the decision logic of the repository:
* `calculate_profitability_index` (src/utils/profitability_calculator.py),
* `EnsembleYieldPredictor.predict_yield` and
  `EnsembleYieldPredictor.predict_production_trends`
  (src/models/ensemble_model.py),
* the guards of `ARIMAForecaster.predict` / `ProphetForecaster.predict`
  (src/models/arima_model.py, src/models/prophet_model.py),
* the `/recommendations` endpoint loop `get_recommendations`
  (src/api/Agriculture_Crop_Production_Prediction_System.py).

Python floats are modelled as rationals (every IEEE double is a rational)
except where `np.std` introduces a square root, where reals are used.
External fitted ML models (scikit-learn, XGBoost, statsmodels, Prophet) are
inputs of the core, not part of it; they are abstracted as explicit
parameters (an `Option` result models "model absent or raised").
-/

namespace CropCore

/-- Python's `round` at two decimal places, modelled over ℚ as
round-half-to-even of `100·x`, divided by 100 (IEEE round-half-even). -/
def roundHalfEven (x : ℚ) : ℤ :=
  let f : ℤ := ⌊x⌋
  let r : ℚ := x - f
  if r < 1/2 then f
  else if 1/2 < r then f + 1
  else if f % 2 = 0 then f else f + 1

/-- `round(x, 2)` from the source, over ℚ. -/
def round2 (x : ℚ) : ℚ := (roundHalfEven (100 * x) : ℚ) / 100

/-- Return record of `calculate_profitability_index`
(src/utils/profitability_calculator.py, lines 66-75). -/
structure ProfitResult where
  profitabilityIndex : ℚ
  predictedYield : ℚ
  unit : String
  expectedRevenue : ℚ
  cost : ℚ
  expectedProfit : ℚ
  profitMargin : ℚ
  recommendation : String
  deriving Repr, DecidableEq

/-- `calculate_profitability_index(predicted_yield, market_price, cost, unit)`
(src/utils/profitability_calculator.py, lines 11-75).  A raised `ValueError`
is modelled as `Except.error` carrying the message. -/
def calculate_profitability_index (predicted_yield market_price cost : ℚ)
    (unit : String := "Quintals/Hectare") : Except String ProfitResult :=
  if cost ≤ 0 then .error "Cost must be greater than zero"
  else if predicted_yield < 0 then .error "Predicted yield cannot be negative"
  else
    let expected_revenue := predicted_yield * market_price
    let profitability_index := if 0 < cost then expected_revenue / cost else 0
    let expected_profit := expected_revenue - cost
    let profit_margin := if 0 < cost then (expected_profit / cost) * 100 else 0
    let recommendation :=
      if profitability_index > 3/2 then "Highly Profitable - Strongly Recommended"
      else if profitability_index > 6/5 then "Profitable - Recommended"
      else if profitability_index > 1 then "Marginally Profitable - Consider"
      else if profitability_index > 4/5 then "Low Profitability - Risky"
      else "Loss-Making - Not Recommended"
    .ok {
      profitabilityIndex := round2 profitability_index
      predictedYield := round2 predicted_yield
      unit := unit
      expectedRevenue := round2 expected_revenue
      cost := round2 cost
      expectedProfit := round2 expected_profit
      profitMargin := round2 profit_margin
      recommendation := recommendation }

/-- Heuristic crop-to-baseline-yield lookup of `predict_yield`
(src/models/ensemble_model.py, lines 120-124): `.get(crop, 20)` on the
base-yield dict. -/
noncomputable def base_yield (crop : String) : ℝ :=
  if crop = "Rice" then 40 else if crop = "Wheat" then 35
  else if crop = "Cotton" then 12 else if crop = "Soybean" then 10
  else if crop = "Sugarcane" then 70 else if crop = "Maize" then 25
  else if crop = "Groundnut" then 15 else if crop = "Pulses" then 8
  else if crop = "Oilseeds" then 12 else if crop = "Jute" then 20
  else 20

/-- `self.weights` dict of `EnsembleYieldPredictor.__init__`
(src/models/ensemble_model.py, lines 33-38); `none` models a key that is
absent from the dict. -/
noncomputable def ensembleWeights (name : String) : Option ℝ :=
  if name = "random_forest" then some (1/2)
  else if name = "xgboost" then some (1/2)
  else if name = "arima" then some (1/5)
  else if name = "prophet" then some (1/5)
  else none

/-- `np.mean` of a list of floats. -/
noncomputable def npMean (l : List ℝ) : ℝ := l.sum / l.length

/-- Population variance, the square of `np.std` (numpy default `ddof=0`). -/
noncomputable def npVar (l : List ℝ) : ℝ :=
  ((l.map (fun x => (x - npMean l)^2)).sum) / l.length

/-- `np.std` of a list of floats: the population standard deviation
(numpy default `ddof=0`). -/
noncomputable def npStd (l : List ℝ) : ℝ := Real.sqrt (npVar l)

/-- Sample standard deviation (`ddof=1`, Bessel-corrected).  Modelled from the
spec's words "compute the sample standard deviation across contributing
values"; the source uses `np.std` (population) instead. -/
noncomputable def sampleStd (l : List ℝ) : ℝ :=
  Real.sqrt (((l.map (fun x => (x - npMean l)^2)).sum) / ((l.length : ℝ) - 1))

/-- Return dictionary of `EnsembleYieldPredictor.predict_yield`
(src/models/ensemble_model.py, lines 135-143). -/
structure BlendedEstimate where
  value : ℝ
  lower : ℝ
  upper : ℝ
  modelNames : List String
  modelUsed : String
  perModel : List (String × ℝ)

/-- `EnsembleYieldPredictor.predict_yield` (src/models/ensemble_model.py,
lines 73-143).  The loaded tree models are external collaborators; `rfOut` /
`xgbOut` are their outputs on the prepared input for this call: `none` models
"model absent, untrained, or its `predict` raised" (the `except` branches at
lines 100 and 110), `some v` a produced value.  The other arguments of the
Python function (`state`, `season`, `year`, `cost`, `df`) only feed
`_prepare_input`, i.e. the external models, and are absorbed into
`rfOut`/`xgbOut`. -/
noncomputable def predict_yield (crop : String) (rfOut xgbOut : Option ℝ) :
    BlendedEstimate :=
  let preds0 : List (String × ℝ) :=
    (match rfOut with | some v => [("random_forest", v)] | none => [])
      ++ (match xgbOut with | some v => [("xgboost", v)] | none => [])
  let preds := if preds0.isEmpty then [("heuristic", base_yield crop)] else preds0
  let ws := preds.map (fun p => (ensembleWeights p.1).getD (1 / (preds.length : ℝ)))
  let wnorm := ws.map (· / ws.sum)
  let ensemble_pred := (List.zipWith (· * ·) wnorm (preds.map (·.2))).sum / wnorm.sum
  let std_pred := if 1 < preds.length then npStd (preds.map (·.2)) else ensemble_pred * 0.1
  { value := max 0 ensemble_pred
    lower := max 0 (ensemble_pred - 1.96 * std_pred)
    upper := ensemble_pred + 1.96 * std_pred
    modelNames := preds.map (·.1)
    modelUsed := "Ensemble (" ++ String.intercalate ", " (preds.map (·.1)) ++ ")"
    perModel := preds }

/-- One record of the tabular historical dataset (columns used by the core:
Crop, State, Year, Production, Cost). -/
structure Row where
  crop : String
  state : String
  year : ℤ
  production : ℚ
  cost : ℚ
  deriving Repr, DecidableEq

/-- `df[(df['Crop'] == crop) & (df['State'] == state)]`: the rows of the
dataset for one crop/state pair (ensemble_model.py line 263, arima_model.py
line 192, and the cost filter of the recommendations endpoint). -/
def pairRows (df : List Row) (crop state : String) : List Row :=
  df.filter (fun r => decide (r.crop = crop ∧ r.state = state))

/-- `Series.mean()` over a list of rationals.  pandas returns NaN on an empty
series; that case is modelled as 0 here and excluded by hypotheses where the
value matters. -/
def qMean (l : List ℚ) : ℚ := l.sum / l.length

/-- The fallback average of `predict_production_trends`
(ensemble_model.py lines 263-265): mean production of the (crop, state)
rows, or the dataset-wide mean production when that pair has no rows
(the `pd.isna` branch). -/
def histMean (df : List Row) (crop state : String) : ℚ :=
  let f := pairRows df crop state
  if f.isEmpty then qMean (df.map (·.production))
  else qMean (f.map (·.production))

/-- One forecast dict (`year`, `predicted_production`, optional bounds; the
constant `unit: 'Tons'` key is omitted). -/
structure TrendPoint where
  year : ℤ
  predicted_production : ℚ
  lower_bound : Option ℚ
  upper_bound : Option ℚ
  deriving Repr, DecidableEq, Inhabited

/-- Return dictionary of `predict_production_trends`. -/
structure TrendResult where
  forecast : List TrendPoint
  trend : String
  model_used : String
  deriving Repr, DecidableEq

/-- Trend tag computed by `predict_production_trends` on a non-empty model
forecast (ensemble_model.py lines 239 and 253):
`'increasing' if predictions[-1][...] > predictions[0][...] else 'decreasing'`. -/
def trendOf (l : List TrendPoint) : String :=
  if (l.getLastD default).predicted_production
      > (l.headD default).predicted_production then "increasing" else "decreasing"

/-- `range(start_year, end_year + 1)` as a list of integers. -/
def yearRange (s e : ℤ) : List ℤ :=
  (List.range (e + 1 - s).toNat).map (fun i => s + i)

/-- `ARIMAForecaster.predict` (src/models/arima_model.py, lines 138-176).
The fitted statsmodels forecast values are external: `fc i` is the
(mean, lower, upper) triple of step `i`.  `startYear` is accepted but unused,
as in the source.  With `steps = endYear - lastYear ≤ 0` the function
returns `[]` before forecasting. -/
def arima_predict (fc : ℕ → ℚ × ℚ × ℚ) (lastYear startYear endYear : ℤ) :
    List TrendPoint :=
  let steps := endYear - lastYear
  if steps ≤ 0 then []
  else (List.range steps.toNat).map (fun (i : ℕ) =>
    { year := lastYear + 1 + (i : ℤ)
      predicted_production := (fc i).1
      lower_bound := some (fc i).2.1
      upper_bound := some (fc i).2.2 })

/-- `ProphetForecaster.predict` (src/models/prophet_model.py, lines 92-137).
The tail rows of Prophet's forecast frame are external data (`rows`, as
(year, yhat, yhat_lower, yhat_upper)); the source keeps the rows with
`start_year ≤ year ≤ end_year`.  With `periods = endYear - lastYear ≤ 0`
the function returns `[]` before forecasting. -/
def prophet_predict (rows : List (ℤ × ℚ × ℚ × ℚ)) (lastYear startYear endYear : ℤ) :
    List TrendPoint :=
  if endYear - lastYear ≤ 0 then []
  else (rows.filter (fun r => decide (startYear ≤ r.1 ∧ r.1 ≤ endYear))).map
    (fun r => { year := r.1, predicted_production := r.2.1,
                lower_bound := some r.2.2.1, upper_bound := some r.2.2.2 })

/-- `EnsembleYieldPredictor.predict_production_trends`
(src/models/ensemble_model.py, lines 211-279).  The two fitted time-series
models are external collaborators: `prophetRes`/`arimaRes` is `none` when the
corresponding try-block raised anywhere (training included), `some l` when
its `predict` returned the list `l`.  When the (crop, state) pair has no rows,
`prepare_time_series` raises and the outer `except` skips both attempts.
Every failure path lands in the linear-extrapolation fallback: no internal
error propagates to the caller. -/
def predict_production_trends (df : List Row) (crop state : String)
    (start_year end_year : ℤ)
    (prophetRes arimaRes : Option (List TrendPoint)) : TrendResult :=
  let arimaBranch : Option TrendResult :=
    match arimaRes with
    | some ps => if ps.isEmpty then none else some ⟨ps, trendOf ps, "ARIMA"⟩
    | none => none
  let chain : Option TrendResult :=
    if (pairRows df crop state).isEmpty then none
    else
      match prophetRes with
      | some ps => if ps.isEmpty then arimaBranch else some ⟨ps, trendOf ps, "Prophet"⟩
      | none => arimaBranch
  match chain with
  | some r => r
  | none =>
    { forecast := (yearRange start_year end_year).map (fun y =>
        { year := y, predicted_production := histMean df crop state,
          lower_bound := none, upper_bound := none })
      trend := "stable"
      model_used := "Linear Extrapolation" }

/-- A one-row dataset: Rice in Punjab, year 2014.  Its last (only) historical
year is 2014. -/
def dfOneRice : List Row :=
  [{ crop := "Rice", state := "Punjab", year := 2014, production := 100, cost := 50 }]

/-- `market_prices` dict of the `/recommendations` endpoint
(Agriculture_Crop_Production_Prediction_System.py, lines 333-344), looked up
with `.get(crop, 2000)` (line 383). -/
def market_prices (crop : String) : ℚ :=
  if crop = "Rice" then 2000 else if crop = "Wheat" then 1800
  else if crop = "Cotton" then 6500 else if crop = "Soybean" then 4000
  else if crop = "Sugarcane" then 3000 else if crop = "Maize" then 1500
  else if crop = "Groundnut" then 5000 else if crop = "Pulses" then 6000
  else if crop = "Oilseeds" then 4500 else if crop = "Jute" then 3500
  else 2000

/-- The `estimated_cost` expression of the `/recommendations` endpoint
(Agriculture_Crop_Production_Prediction_System.py, lines 356-370):
`min(budget, mean cost of the (crop, state) rows if any, else budget*0.8)`. -/
def estimatedCost (df : List Row) (crop state : String) (budget : ℚ) : ℚ :=
  let rows := pairRows df crop state
  min budget (if 0 < rows.length then qMean (rows.map (·.cost)) else budget * 0.8)

/-- Modelled from the spec: the claim's cost rule — "the historical mean cost
for that crop and region when historical data exists for the pair and that
mean is at most the budget, and 80% of the budget otherwise".  Written only
to be compared with `estimatedCost`, the rule the source implements. -/
def claimEstimatedCost (df : List Row) (crop state : String) (budget : ℚ) : ℚ :=
  let rows := pairRows df crop state
  if 0 < rows.length ∧ qMean (rows.map (·.cost)) ≤ budget
  then qMean (rows.map (·.cost)) else budget * 0.8

/-- One recommendation dict of the `/recommendations` endpoint
(Agriculture_Crop_Production_Prediction_System.py, lines 392-403). -/
structure Recommendation where
  crop : String
  rank : ℕ
  profitability_index : ℚ
  predicted_yield : ℚ
  estimated_cost : ℚ
  expected_revenue : ℚ
  expected_profit : ℚ
  reason : String
  deriving Repr, DecidableEq

/-- `df['Crop'].unique().tolist()`: distinct crops in order of first
appearance (line 303). -/
def uniqueCrops (df : List Row) : List String :=
  (df.map (·.crop)).foldl (fun acc c => if c ∈ acc then acc else acc ++ [c]) []

/-- `recommendations.sort(key=..., reverse=True)` (line 408): stable sort,
descending by `profitability_index`. -/
def sortRecs (l : List Recommendation) : List Recommendation :=
  List.insertionSort (fun x y => y.profitability_index ≤ x.profitability_index) l

/-- `for i, rec in enumerate(recommendations, 1): rec['rank'] = i`
(lines 409-410). -/
def assignRanks : ℕ → List Recommendation → List Recommendation
  | _, [] => []
  | i, r :: rs => { r with rank := i } :: assignRanks (i + 1) rs

/-- Sort descending by profitability index, then assign 1-based ranks
(lines 407-410). -/
def rankRecommendations (l : List Recommendation) : List Recommendation :=
  assignRanks 1 (sortRecs l)

/-- The candidate loop of the `/recommendations` endpoint
(Agriculture_Crop_Production_Prediction_System.py, lines 301-417).
The loaded ensemble predictor is an external collaborator: `yieldOf crop
cost` stands for `predictor.predict_yield(crop, state, season, 2024, cost,
df)['predicted_yield']` — `state`, `season` and the fixed year 2024 are
constant within one call and absorbed into `yieldOf`.  A crop whose
profitability computation raises (`except: continue`, line 404) is dropped.
The returned list is sorted, ranked, then cut to `top_n` (line 415). -/
def get_recommendations (df : List Row) (state season : String) (budget : ℚ)
    (top_n : ℕ) (yieldOf : String → ℚ → ℚ) : List Recommendation :=
  let crops := (uniqueCrops df).take 10
  let recs := crops.filterMap (fun crop =>
    let cost := estimatedCost df crop state budget
    let py := yieldOf crop cost
    match calculate_profitability_index py (market_prices crop) cost with
    | .ok prof => some
        { crop := crop, rank := 0, profitability_index := prof.profitabilityIndex,
          predicted_yield := py, estimated_cost := cost,
          expected_revenue := prof.expectedRevenue,
          expected_profit := prof.expectedProfit, reason := prof.recommendation }
    | .error _ => none)
  (rankRecommendations recs).take top_n

instance : IsTotal Recommendation
    (fun x y => y.profitability_index ≤ x.profitability_index) :=
  ⟨fun _ _ => le_total _ _⟩

instance : IsTrans Recommendation
    (fun x y => y.profitability_index ≤ x.profitability_index) :=
  ⟨fun _ _ _ h1 h2 => le_trans h2 h1⟩

def dfC9 : List Row :=
  [{ crop := "Rice", state := "Punjab", year := 2014, production := 100, cost := 150000 }]

/-- A three-candidate list with profitability indices in the order
[1.3, 2, 0.9], used to witness the ranking claim. -/
def recListC8 : List Recommendation :=
  [{ crop := "Wheat", rank := 0, profitability_index := 13/10,
     predicted_yield := 0, estimated_cost := 0, expected_revenue := 0,
     expected_profit := 0, reason := "" },
   { crop := "Rice", rank := 0, profitability_index := 2,
     predicted_yield := 0, estimated_cost := 0, expected_revenue := 0,
     expected_profit := 0, reason := "" },
   { crop := "Cotton", rank := 0, profitability_index := 9/10,
     predicted_yield := 0, estimated_cost := 0, expected_revenue := 0,
     expected_profit := 0, reason := "" }]

lemma base_yield_pos (crop : String) : 0 < base_yield crop := by
  unfold base_yield; split_ifs <;> norm_num

lemma npVar_pair (a b : ℝ) : npVar [a, b] = ((a - b)/2)^2 := by
  unfold npVar npMean
  norm_num
  ring

lemma npStd_pair (a b : ℝ) : npStd [a, b] = |a - b| / 2 := by
  unfold npStd
  rw [npVar_pair, Real.sqrt_sq_eq_abs, abs_div]
  norm_num

lemma npStd_nonneg (l : List ℝ) : 0 ≤ npStd l := Real.sqrt_nonneg _

lemma py_hh_value (crop : String) :
    (predict_yield crop none none).value = max 0 (base_yield crop) := by
  simp [predict_yield, ensembleWeights]

lemma py_hh_lower (crop : String) :
    (predict_yield crop none none).lower
      = max 0 (base_yield crop - 1.96 * (base_yield crop * 0.1)) := by
  simp [predict_yield, ensembleWeights]

lemma py_hh_upper (crop : String) :
    (predict_yield crop none none).upper
      = base_yield crop + 1.96 * (base_yield crop * 0.1) := by
  simp [predict_yield, ensembleWeights]

lemma py_hh_names (crop : String) :
    (predict_yield crop none none).modelNames = ["heuristic"] := by
  simp [predict_yield]

lemma py_hh_perModel (crop : String) :
    (predict_yield crop none none).perModel = [("heuristic", base_yield crop)] := by
  simp [predict_yield]

lemma py_rf_value (crop : String) (a : ℝ) :
    (predict_yield crop (some a) none).value = max 0 a := by
  simp [predict_yield, ensembleWeights]

lemma py_rf_lower (crop : String) (a : ℝ) :
    (predict_yield crop (some a) none).lower = max 0 (a - 1.96 * (a * 0.1)) := by
  simp [predict_yield, ensembleWeights]

lemma py_rf_upper (crop : String) (a : ℝ) :
    (predict_yield crop (some a) none).upper = a + 1.96 * (a * 0.1) := by
  simp [predict_yield, ensembleWeights]

lemma py_xgb_value (crop : String) (b : ℝ) :
    (predict_yield crop none (some b)).value = max 0 b := by
  simp [predict_yield, ensembleWeights]

lemma py_xgb_lower (crop : String) (b : ℝ) :
    (predict_yield crop none (some b)).lower = max 0 (b - 1.96 * (b * 0.1)) := by
  simp [predict_yield, ensembleWeights]

lemma py_xgb_upper (crop : String) (b : ℝ) :
    (predict_yield crop none (some b)).upper = b + 1.96 * (b * 0.1) := by
  simp [predict_yield, ensembleWeights]

lemma py_two_value (crop : String) (a b : ℝ) :
    (predict_yield crop (some a) (some b)).value = max 0 ((a + b)/2) := by
  simp [predict_yield, ensembleWeights]
  ring_nf

lemma py_two_lower (crop : String) (a b : ℝ) :
    (predict_yield crop (some a) (some b)).lower
      = max 0 ((a + b)/2 - 1.96 * npStd [a, b]) := by
  simp [predict_yield, ensembleWeights]
  ring_nf

lemma py_two_upper (crop : String) (a b : ℝ) :
    (predict_yield crop (some a) (some b)).upper
      = (a + b)/2 + 1.96 * npStd [a, b] := by
  simp [predict_yield, ensembleWeights]
  ring_nf

/-- C1: whatever subset of the two point models contributed (both, one, or
the heuristic fallback), the blended estimate satisfies
`lower ≤ value ≤ upper` and `0 ≤ value`.  The hypotheses say each
contributing model output is a valid `PointEstimate`, i.e. nonnegative. -/
theorem C1_blended_invariant (crop : String) (rfOut xgbOut : Option ℝ)
    (hrf : ∀ v, rfOut = some v → 0 ≤ v) (hxgb : ∀ v, xgbOut = some v → 0 ≤ v) :
    (predict_yield crop rfOut xgbOut).lower ≤ (predict_yield crop rfOut xgbOut).value ∧
    (predict_yield crop rfOut xgbOut).value ≤ (predict_yield crop rfOut xgbOut).upper ∧
    0 ≤ (predict_yield crop rfOut xgbOut).value := by
  rcases rfOut with _ | a <;> rcases xgbOut with _ | b
  · have hb := base_yield_pos crop
    rw [py_hh_value, py_hh_lower, py_hh_upper]
    refine ⟨max_le_max le_rfl (by nlinarith), ?_, le_max_left _ _⟩
    rw [max_eq_right (le_of_lt hb)]; nlinarith
  · have hb' := hxgb b rfl
    rw [py_xgb_value, py_xgb_lower, py_xgb_upper]
    refine ⟨max_le_max le_rfl (by nlinarith), ?_, le_max_left _ _⟩
    rw [max_eq_right hb']; nlinarith
  · have ha' := hrf a rfl
    rw [py_rf_value, py_rf_lower, py_rf_upper]
    refine ⟨max_le_max le_rfl (by nlinarith), ?_, le_max_left _ _⟩
    rw [max_eq_right ha']; nlinarith
  · have ha' := hrf a rfl
    have hb' := hxgb b rfl
    have hs := npStd_nonneg [a, b]
    rw [py_two_value, py_two_lower, py_two_upper]
    refine ⟨max_le_max le_rfl (by nlinarith), ?_, le_max_left _ _⟩
    rw [max_eq_right (by linarith)]; nlinarith

/-- Witness for C1_blended_invariant: both models absent, crop Rice. -/
theorem C1_blended_invariant_witness :
    (predict_yield "Rice" none none).lower ≤ (predict_yield "Rice" none none).value ∧
    (predict_yield "Rice" none none).value ≤ (predict_yield "Rice" none none).upper ∧
    0 ≤ (predict_yield "Rice" none none).value :=
  C1_blended_invariant "Rice" none none (fun v h => by cases h) (fun v h => by cases h)

/-- C2: with zero contributing point estimators the prediction does not fail:
it is tagged "heuristic", its value is the static crop-to-baseline lookup
(40 for Rice, generic default 20 for a crop outside the table), and the
`BlendedEstimate` invariants still hold. -/
theorem C2_heuristic_fallback (crop : String) :
    (predict_yield crop none none).modelNames = ["heuristic"] ∧
    (predict_yield crop none none).value = base_yield crop ∧
    (predict_yield crop none none).perModel = [("heuristic", base_yield crop)] ∧
    base_yield "Rice" = 40 ∧
    (∀ c : String,
      c ∉ (["Rice", "Wheat", "Cotton", "Soybean", "Sugarcane", "Maize",
            "Groundnut", "Pulses", "Oilseeds", "Jute"] : List String) →
      base_yield c = 20) ∧
    (predict_yield crop none none).lower ≤ (predict_yield crop none none).value ∧
    (predict_yield crop none none).value ≤ (predict_yield crop none none).upper ∧
    0 ≤ (predict_yield crop none none).value := by
  have hb := base_yield_pos crop
  refine ⟨py_hh_names crop, ?_, py_hh_perModel crop, by simp [base_yield], ?_, ?_, ?_, ?_⟩
  · rw [py_hh_value, max_eq_right (le_of_lt hb)]
  · intro c hc
    simp only [List.mem_cons, List.not_mem_nil, not_or, or_false] at hc
    obtain ⟨h1, h2, h3, h4, h5, h6, h7, h8, h9, h10⟩ := hc
    unfold base_yield
    rw [if_neg h1, if_neg h2, if_neg h3, if_neg h4, if_neg h5, if_neg h6,
      if_neg h7, if_neg h8, if_neg h9, if_neg h10]
  · rw [py_hh_value, py_hh_lower]
    exact max_le_max le_rfl (by nlinarith)
  · rw [py_hh_value, py_hh_upper, max_eq_right (le_of_lt hb)]
    nlinarith
  · rw [py_hh_value]
    exact le_max_left _ _

/-- C4, counterexample: the claim says the interval uses the sample standard
deviation of the contributing values; the source computes `np.std`, the
population standard deviation.  With contributions 10 and 20 the code's lower
bound is `15 - 1.96·5 = 5.2`, not `max 0 (15 - 1.96·√50)` as the sample
standard deviation `√50` would give. -/
theorem C4_not_sample_std :
    (predict_yield "Rice" (some 10) (some 20)).lower
      ≠ max 0 ((predict_yield "Rice" (some 10) (some 20)).value
                - 1.96 * sampleStd [10, 20]) := by
  have hstd : npStd [(10 : ℝ), 20] = 5 := by rw [npStd_pair]; norm_num
  have hv : (predict_yield "Rice" (some 10) (some 20)).value = 15 := by
    rw [py_two_value]; norm_num
  have hl : (predict_yield "Rice" (some 10) (some 20)).lower = 5.2 := by
    rw [py_two_lower, hstd]; norm_num
  have hsamp : (7 : ℝ) < sampleStd [10, 20] := by
    unfold sampleStd npMean
    rw [show ((([(10:ℝ), 20].map (fun x => (x - [(10:ℝ), 20].sum / ([(10:ℝ), 20].length : ℝ))^2)).sum) / (([(10:ℝ), 20].length : ℝ) - 1)) = 50 by norm_num]
    nlinarith [Real.sq_sqrt (by norm_num : (0:ℝ) ≤ 50), Real.sqrt_nonneg (50:ℝ)]
  rw [hl, hv]
  have : max 0 (15 - 1.96 * sampleStd [10, 20]) < 5.2 := by
    apply max_lt <;> nlinarith
  exact ne_of_gt this

/-- C4 (amended): with two contributing models the interval is
`value ± 1.96·σ` with `σ` the population standard deviation (`np.std`,
`ddof=0`) of the contributing values, the lower bound floored at 0; with one
model, or with the heuristic fallback, the interval is synthesized as
`value ± 1.96·(0.1·value)`.  Contributing values are assumed nonnegative. -/
theorem C4_interval_shape (crop : String) (a b : ℝ) (ha : 0 ≤ a) (hb : 0 ≤ b) :
    ((predict_yield crop (some a) (some b)).lower
        = max 0 ((predict_yield crop (some a) (some b)).value - 1.96 * npStd [a, b]) ∧
      (predict_yield crop (some a) (some b)).upper
        = (predict_yield crop (some a) (some b)).value + 1.96 * npStd [a, b]) ∧
    ((predict_yield crop (some a) none).lower
        = max 0 ((predict_yield crop (some a) none).value
                  - 1.96 * (0.1 * (predict_yield crop (some a) none).value)) ∧
      (predict_yield crop (some a) none).upper
        = (predict_yield crop (some a) none).value
            + 1.96 * (0.1 * (predict_yield crop (some a) none).value)) ∧
    ((predict_yield crop none (some b)).lower
        = max 0 ((predict_yield crop none (some b)).value
                  - 1.96 * (0.1 * (predict_yield crop none (some b)).value)) ∧
      (predict_yield crop none (some b)).upper
        = (predict_yield crop none (some b)).value
            + 1.96 * (0.1 * (predict_yield crop none (some b)).value)) ∧
    ((predict_yield crop none none).lower
        = max 0 ((predict_yield crop none none).value
                  - 1.96 * (0.1 * (predict_yield crop none none).value)) ∧
      (predict_yield crop none none).upper
        = (predict_yield crop none none).value
            + 1.96 * (0.1 * (predict_yield crop none none).value)) := by
  have hby := base_yield_pos crop
  have hab : (0:ℝ) ≤ (a + b)/2 := by linarith
  refine ⟨⟨?_, ?_⟩, ⟨?_, ?_⟩, ⟨?_, ?_⟩, ⟨?_, ?_⟩⟩
  · rw [py_two_lower, py_two_value, max_eq_right hab]
  · rw [py_two_upper, py_two_value, max_eq_right hab]
  · rw [py_rf_lower, py_rf_value, max_eq_right ha]; ring_nf
  · rw [py_rf_upper, py_rf_value, max_eq_right ha]; ring_nf
  · rw [py_xgb_lower, py_xgb_value, max_eq_right hb]; ring_nf
  · rw [py_xgb_upper, py_xgb_value, max_eq_right hb]; ring_nf
  · rw [py_hh_lower, py_hh_value, max_eq_right (le_of_lt hby)]; ring_nf
  · rw [py_hh_upper, py_hh_value, max_eq_right (le_of_lt hby)]; ring_nf

/-- Witness for C2_heuristic_fallback at crop Rice. -/
theorem C2_heuristic_fallback_witness :
    (predict_yield "Rice" none none).modelNames = ["heuristic"] ∧
    (predict_yield "Rice" none none).value = base_yield "Rice" :=
  ⟨(C2_heuristic_fallback "Rice").1, (C2_heuristic_fallback "Rice").2.1⟩

/-- Witness for C4_interval_shape: crop Rice, contributions 10 and 20. -/
theorem C4_interval_shape_witness :
    (0:ℝ) ≤ 10 ∧ (0:ℝ) ≤ 20 ∧
    ((predict_yield "Rice" (some 10) (some 20)).lower
        = max 0 ((predict_yield "Rice" (some 10) (some 20)).value
                  - 1.96 * npStd [10, 20]) ∧
      (predict_yield "Rice" (some 10) (some 20)).upper
        = (predict_yield "Rice" (some 10) (some 20)).value + 1.96 * npStd [10, 20]) :=
  ⟨by norm_num, by norm_num,
    (C4_interval_shape "Rice" 10 20 (by norm_num) (by norm_num)).1⟩

lemma ppt_fallback_eq (df : List Row) (crop state : String) (sY eY : ℤ)
    (pr ar : Option (List TrendPoint))
    (hp : pr = none ∨ pr = some []) (ha : ar = none ∨ ar = some []) :
    predict_production_trends df crop state sY eY pr ar =
      { forecast := (yearRange sY eY).map (fun y =>
          { year := y, predicted_production := histMean df crop state,
            lower_bound := none, upper_bound := none })
        trend := "stable"
        model_used := "Linear Extrapolation" } := by
  rcases hp with hp | hp <;> rcases ha with ha | ha <;>
    subst hp <;> subst ha <;>
    simp [predict_production_trends]

lemma ppt_nodata_eq (df : List Row) (crop state : String) (sY eY : ℤ)
    (pr ar : Option (List TrendPoint)) (h : (pairRows df crop state).isEmpty) :
    predict_production_trends df crop state sY eY pr ar =
      { forecast := (yearRange sY eY).map (fun y =>
          { year := y, predicted_production := histMean df crop state,
            lower_bound := none, upper_bound := none })
        trend := "stable"
        model_used := "Linear Extrapolation" } := by
  simp [predict_production_trends, h]

lemma ppt_prophet_eq (df : List Row) (crop state : String) (sY eY : ℤ)
    (ps : List TrendPoint) (ar : Option (List TrendPoint))
    (hne : ¬ (pairRows df crop state).isEmpty) (hps : ps ≠ []) :
    predict_production_trends df crop state sY eY (some ps) ar
      = ⟨ps, trendOf ps, "Prophet"⟩ := by
  simp [predict_production_trends, hne, hps]

lemma ppt_arima_eq (df : List Row) (crop state : String) (sY eY : ℤ)
    (pr : Option (List TrendPoint)) (qs : List TrendPoint)
    (hne : ¬ (pairRows df crop state).isEmpty)
    (hp : pr = none ∨ pr = some []) (hqs : qs ≠ []) :
    predict_production_trends df crop state sY eY pr (some qs)
      = ⟨qs, trendOf qs, "ARIMA"⟩ := by
  rcases hp with hp | hp <;> subst hp <;>
    simp [predict_production_trends, hne, hqs]

/-- C3: the forecast chain prefers Prophet's non-empty output, then ARIMA's,
and when both fail or produce no points (also when the pair has no data and
the series preparation raises) it returns the linear-extrapolation fallback:
one point per requested year, every point equal to the historical mean
(`histMean`: pair mean, or dataset-wide mean when the pair has no rows),
tagged "Linear Extrapolation" / "stable".  The function is total: no internal
error reaches the caller. -/
theorem C3_forecast_fallback (df : List Row) (crop state : String) (sY eY : ℤ)
    (pr ar : Option (List TrendPoint)) :
    (∀ ps, ¬ (pairRows df crop state).isEmpty → pr = some ps → ps ≠ [] →
      predict_production_trends df crop state sY eY pr ar
        = ⟨ps, trendOf ps, "Prophet"⟩) ∧
    (∀ qs, ¬ (pairRows df crop state).isEmpty → (pr = none ∨ pr = some []) →
      ar = some qs → qs ≠ [] →
      predict_production_trends df crop state sY eY pr ar
        = ⟨qs, trendOf qs, "ARIMA"⟩) ∧
    ((pr = none ∨ pr = some []) → (ar = none ∨ ar = some []) →
      (predict_production_trends df crop state sY eY pr ar).model_used
          = "Linear Extrapolation" ∧
      (predict_production_trends df crop state sY eY pr ar).trend = "stable" ∧
      (predict_production_trends df crop state sY eY pr ar).forecast.map (·.year)
          = yearRange sY eY ∧
      ∀ pt ∈ (predict_production_trends df crop state sY eY pr ar).forecast,
        pt.predicted_production = histMean df crop state) ∧
    ((pairRows df crop state).isEmpty →
      (predict_production_trends df crop state sY eY pr ar).model_used
          = "Linear Extrapolation" ∧
      ∀ pt ∈ (predict_production_trends df crop state sY eY pr ar).forecast,
        pt.predicted_production = histMean df crop state) := by
  refine ⟨?_, ?_, ?_, ?_⟩
  · intro ps hne hpr hps
    subst hpr
    exact ppt_prophet_eq df crop state sY eY ps ar hne hps
  · intro qs hne hp har hqs
    subst har
    exact ppt_arima_eq df crop state sY eY pr qs hne hp hqs
  · intro hp ha
    rw [ppt_fallback_eq df crop state sY eY pr ar hp ha]
    refine ⟨rfl, rfl, ?_, ?_⟩
    · simp only [List.map_map, Function.comp_def]
      exact List.map_id _
    intro pt hpt
    simp only [List.mem_map] at hpt
    obtain ⟨y, _, rfl⟩ := hpt
    rfl
  · intro h
    rw [ppt_nodata_eq df crop state sY eY pr ar h]
    refine ⟨rfl, ?_⟩
    intro pt hpt
    simp only [List.mem_map] at hpt
    obtain ⟨y, _, rfl⟩ := hpt
    rfl

/-- Witness for C3_forecast_fallback: Prophet returned an empty list, ARIMA
raised, one-row Rice/Punjab data, window 2015-2017. -/
theorem C3_forecast_fallback_witness :
    (predict_production_trends dfOneRice "Rice" "Punjab" 2015 2017 (some []) none).model_used
        = "Linear Extrapolation" ∧
    (predict_production_trends dfOneRice "Rice" "Punjab" 2015 2017 (some []) none).trend
        = "stable" ∧
    (predict_production_trends dfOneRice "Rice" "Punjab" 2015 2017 (some []) none).forecast.map (·.year)
        = yearRange 2015 2017 ∧
    ∀ pt ∈ (predict_production_trends dfOneRice "Rice" "Punjab" 2015 2017 (some []) none).forecast,
      pt.predicted_production = histMean dfOneRice "Rice" "Punjab" :=
  (C3_forecast_fallback dfOneRice "Rice" "Punjab" 2015 2017 (some []) none).2.2.1
    (Or.inr rfl) (Or.inl rfl)

/-- C5, counterexample: the claim says a request whose `endYear` does not
exceed the last historical year returns no forecast points.  The trend models
do return `[]` then, but precisely because of that the chain falls through to
linear extrapolation, which emits one point per requested year: for the
one-row 2014 dataset and window 2010-2012 the result has points for the
already-observed years 2010, 2011, 2012. -/
theorem C5_observed_years_not_empty :
    prophet_predict [] 2014 2010 2012 = [] ∧
    arima_predict (fun _ => (0, 0, 0)) 2014 2010 2012 = [] ∧
    ((2012 : ℤ) ≤ 2014) ∧
    (predict_production_trends dfOneRice "Rice" "Punjab" 2010 2012
        (some (prophet_predict [] 2014 2010 2012))
        (some (arima_predict (fun _ => (0, 0, 0)) 2014 2010 2012))).forecast.map (·.year)
      = [2010, 2011, 2012] ∧
    ([2010, 2011, 2012] : List ℤ) ≠ [] := by
  have hp : prophet_predict [] 2014 2010 2012 = [] := by simp [prophet_predict]
  have ha : arima_predict (fun _ => (0, 0, 0)) 2014 2010 2012 = [] := by
    simp [arima_predict]
  refine ⟨hp, ha, by norm_num, ?_, by simp⟩
  rw [hp, ha, ppt_fallback_eq _ _ _ _ _ _ _ (Or.inr rfl) (Or.inr rfl)]
  simp [yearRange]
  decide

/-- C5 (amended): for `endYear ≤ lastHistoricalYear` both trend models
genuinely return no points (their `steps ≤ 0` guards), but the chain then
returns the linear-extrapolation fallback, which emits one point for every
requested year from `startYear` to `endYear`, already-observed years
included; the overall result is not empty whenever `startYear ≤ endYear`. -/
theorem C5_observed_years (lastY sY eY : ℤ) (fc : ℕ → ℚ × ℚ × ℚ)
    (rows : List (ℤ × ℚ × ℚ × ℚ)) (df : List Row) (crop state : String)
    (h : eY ≤ lastY) :
    prophet_predict rows lastY sY eY = [] ∧
    arima_predict fc lastY sY eY = [] ∧
    (predict_production_trends df crop state sY eY
        (some (prophet_predict rows lastY sY eY))
        (some (arima_predict fc lastY sY eY))).model_used = "Linear Extrapolation" ∧
    (predict_production_trends df crop state sY eY
        (some (prophet_predict rows lastY sY eY))
        (some (arima_predict fc lastY sY eY))).forecast.map (·.year)
      = yearRange sY eY := by
  have hp : prophet_predict rows lastY sY eY = [] := by
    unfold prophet_predict
    rw [if_pos (by omega)]
  have ha : arima_predict fc lastY sY eY = [] := by
    unfold arima_predict
    simp only []
    rw [if_pos (by omega)]
  refine ⟨hp, ha, ?_, ?_⟩ <;>
    rw [hp, ha, ppt_fallback_eq _ _ _ _ _ _ _ (Or.inr rfl) (Or.inr rfl)]
  simp only [List.map_map, Function.comp_def]
  exact List.map_id _

/-- Witness for C5_observed_years: last year 2014, window 2010-2012. -/
theorem C5_observed_years_witness :
    ((2012 : ℤ) ≤ 2014) ∧
    prophet_predict [] 2014 2010 2012 = [] ∧
    arima_predict (fun _ => (1, 0, 2)) 2014 2010 2012 = [] ∧
    (predict_production_trends dfOneRice "Rice" "Punjab" 2010 2012
        (some (prophet_predict [] 2014 2010 2012))
        (some (arima_predict (fun _ => (1, 0, 2)) 2014 2010 2012))).forecast.map (·.year)
      = yearRange 2010 2012 := by
  have h := C5_observed_years 2014 2010 2012 (fun _ => (1, 0, 2)) [] dfOneRice
    "Rice" "Punjab" (by norm_num)
  exact ⟨by norm_num, h.1, h.2.1, h.2.2.2⟩

/-- C6, counterexample: the claim says equal first and last forecast values
give trend "stable" whichever model produced the forecast; the source's
Prophet and ARIMA branches compute `'increasing' if last > first else
'decreasing'`, so a flat Prophet forecast is tagged "decreasing". -/
theorem C6_tie_is_decreasing :
    (let flat : List TrendPoint :=
      [{ year := 2015, predicted_production := 5, lower_bound := some 4,
         upper_bound := some 6 },
       { year := 2016, predicted_production := 5, lower_bound := some 4,
         upper_bound := some 6 }]
     ((flat.headD default).predicted_production
        = (flat.getLastD default).predicted_production) ∧
     (predict_production_trends dfOneRice "Rice" "Punjab" 2015 2016
        (some flat) none).trend = "decreasing" ∧
     "decreasing" ≠ "stable") := by
  refine ⟨by simp, ?_, by simp⟩
  rw [ppt_prophet_eq _ _ _ _ _ _ _ (by simp [pairRows, dfOneRice]) (by simp)]
  simp [trendOf]

/-- C6 (amended): for a non-empty Prophet or ARIMA forecast the reported
trend is "increasing" if the last value strictly exceeds the first and
"decreasing" otherwise (ties included); only the linear-extrapolation
fallback reports "stable". -/
theorem C6_trend_direction (df : List Row) (crop state : String) (sY eY : ℤ)
    (pr ar : Option (List TrendPoint)) :
    (∀ ps, ¬ (pairRows df crop state).isEmpty → pr = some ps → ps ≠ [] →
      (predict_production_trends df crop state sY eY pr ar).trend
        = (if (ps.getLastD default).predicted_production
              > (ps.headD default).predicted_production
           then "increasing" else "decreasing")) ∧
    (∀ qs, ¬ (pairRows df crop state).isEmpty → (pr = none ∨ pr = some []) →
      ar = some qs → qs ≠ [] →
      (predict_production_trends df crop state sY eY pr ar).trend
        = (if (qs.getLastD default).predicted_production
              > (qs.headD default).predicted_production
           then "increasing" else "decreasing")) ∧
    ((pr = none ∨ pr = some []) → (ar = none ∨ ar = some []) →
      (predict_production_trends df crop state sY eY pr ar).trend = "stable") := by
  refine ⟨?_, ?_, ?_⟩
  · intro ps hne hpr hps
    subst hpr
    rw [ppt_prophet_eq df crop state sY eY ps ar hne hps]
    rfl
  · intro qs hne hp har hqs
    subst har
    rw [ppt_arima_eq df crop state sY eY pr qs hne hp hqs]
    rfl
  · intro hp ha
    rw [ppt_fallback_eq df crop state sY eY pr ar hp ha]

/-- Witness for C6_trend_direction: a strictly rising two-point Prophet
forecast over the one-row Rice dataset is tagged "increasing". -/
theorem C6_trend_direction_witness :
    (predict_production_trends dfOneRice "Rice" "Punjab" 2015 2016
        (some [{ year := 2015, predicted_production := 3, lower_bound := none,
                 upper_bound := none },
               { year := 2016, predicted_production := 7, lower_bound := none,
                 upper_bound := none }]) none).trend = "increasing" := by
  rw [(C6_trend_direction dfOneRice "Rice" "Punjab" 2015 2016
      (some [{ year := 2015, predicted_production := 3, lower_bound := none,
               upper_bound := none },
             { year := 2016, predicted_production := 7, lower_bound := none,
               upper_bound := none }]) none).1 _
      (by simp [pairRows, dfOneRice]) rfl (by simp)]
  norm_num

/-- C7, counterexample: the claim says the returned `profitabilityIndex` equals
`(predictedYield * marketPrice) / cost` exactly, but the source returns
`round(profitability_index, 2)` (line 67): at yield 1, price 1, cost 3 the
returned index is 0.33, not 1/3. -/
theorem C7_index_not_exact :
    (calculate_profitability_index 1 1 3).toOption.map (·.profitabilityIndex)
      = some (33/100) ∧ (33/100 : ℚ) ≠ 1 * 1 / 3 := by
  constructor
  · norm_num [calculate_profitability_index, round2, roundHalfEven]
    exact ⟨_, rfl, rfl⟩
  · norm_num

/-- C7 (amended): `calculate_profitability_index` errors whenever `cost ≤ 0`;
for `cost > 0` and `yield ≥ 0` it succeeds, the returned index is the exact
ratio `yield*price/cost` rounded to two decimals, and the recommendation text
is chosen from the unrounded ratio by the fixed strict thresholds
1.5 / 1.2 / 1.0 / 0.8; at yield 50, price 2000, cost 80000 the index is 1.25
with recommendation "Profitable - Recommended". -/
theorem C7_profitability (y p c : ℚ) :
    (c ≤ 0 → calculate_profitability_index y p c
        = .error "Cost must be greater than zero") ∧
    (0 < c → 0 ≤ y →
      ∃ r, calculate_profitability_index y p c = .ok r ∧
        r.profitabilityIndex = round2 (y * p / c) ∧
        r.recommendation =
          (if 3/2 < y * p / c then "Highly Profitable - Strongly Recommended"
           else if 6/5 < y * p / c then "Profitable - Recommended"
           else if 1 < y * p / c then "Marginally Profitable - Consider"
           else if 4/5 < y * p / c then "Low Profitability - Risky"
           else "Loss-Making - Not Recommended")) ∧
    ((calculate_profitability_index 50 2000 80000).toOption.map
        (fun r => (r.profitabilityIndex, r.recommendation))
      = some (5/4, "Profitable - Recommended")) := by
  refine ⟨fun hc => ?_, fun hc hy => ?_, ?_⟩
  · simp [calculate_profitability_index, hc]
  · have hc' : ¬ c ≤ 0 := not_le.mpr hc
    have hy' : ¬ y < 0 := not_lt.mpr hy
    simp only [calculate_profitability_index, if_neg hc', if_neg hy']
    refine ⟨_, rfl, ?_, ?_⟩
    · simp [if_pos hc]
    · simp only [if_pos hc]
  · norm_num [calculate_profitability_index, round2, roundHalfEven]
    exact ⟨_, rfl, rfl, rfl⟩

/-- Witness for C7_profitability at yield 50, price 2000, cost 80000. -/
theorem C7_profitability_witness :
    (0:ℚ) < 80000 ∧ (0:ℚ) ≤ 50 ∧
    (∃ r, calculate_profitability_index 50 2000 80000 = .ok r ∧
        r.profitabilityIndex = round2 (50 * 2000 / 80000) ∧
        r.recommendation = "Profitable - Recommended") := by
  have h := C7_profitability 50 2000 80000
  obtain ⟨r, hr, hi, hrec⟩ := h.2.1 (by norm_num) (by norm_num)
  exact ⟨by norm_num, by norm_num, r, hr, hi, by rw [hrec]; norm_num⟩

lemma assignRanks_map_pi (i : ℕ) (l : List Recommendation) :
    (assignRanks i l).map (·.profitability_index) = l.map (·.profitability_index) := by
  induction l generalizing i with
  | nil => rfl
  | cons r rs ih => simp [assignRanks, ih]

lemma assignRanks_map_crop (i : ℕ) (l : List Recommendation) :
    (assignRanks i l).map (·.crop) = l.map (·.crop) := by
  induction l generalizing i with
  | nil => rfl
  | cons r rs ih => simp [assignRanks, ih]

lemma assignRanks_map_rank (i : ℕ) (l : List Recommendation) :
    (assignRanks i l).map (·.rank) = List.range' i l.length := by
  induction l generalizing i with
  | nil => rfl
  | cons r rs ih => simp [assignRanks, ih, List.range'_succ]

lemma assignRanks_length (i : ℕ) (l : List Recommendation) :
    (assignRanks i l).length = l.length := by
  induction l generalizing i with
  | nil => rfl
  | cons r rs ih => simp [assignRanks, ih]

lemma sortRecs_perm (l : List Recommendation) : (sortRecs l).Perm l :=
  List.perm_insertionSort _ l

lemma sortRecs_sorted (l : List Recommendation) :
    List.Sorted (fun x y => y.profitability_index ≤ x.profitability_index) (sortRecs l) :=
  List.sorted_insertionSort _ l

lemma rankRecommendations_length (l : List Recommendation) :
    (rankRecommendations l).length = l.length := by
  rw [rankRecommendations, assignRanks_length, sortRecs, List.length_insertionSort]

/-- C8: after scoring, the recommendation list is sorted in descending order
of `profitability_index`, 1-based ranks are assigned only after the full
sort (position i gets rank i, so values [2.0, 1.3, 0.9] receive ranks
[1, 2, 3] whatever the input order), and taking top-N with N at least the
candidate count returns every candidate. -/
theorem C8_ranking (l : List Recommendation) (n : ℕ) :
    ((rankRecommendations l).map (·.profitability_index)).Pairwise (fun x y => y ≤ x) ∧
    (rankRecommendations l).map (·.rank) = List.range' 1 l.length ∧
    ((l.map (·.profitability_index)).Perm [2, 13/10, 9/10] →
      (rankRecommendations l).map (·.profitability_index) = [2, 13/10, 9/10] ∧
      (rankRecommendations l).map (·.rank) = [1, 2, 3]) ∧
    (l.length ≤ n → (rankRecommendations l).take n = rankRecommendations l) := by
  have hpi : (rankRecommendations l).map (·.profitability_index)
      = (sortRecs l).map (·.profitability_index) := assignRanks_map_pi 1 (sortRecs l)
  have hsorted : ((sortRecs l).map (·.profitability_index)).Pairwise (fun x y => y ≤ x) :=
    List.pairwise_map.mpr (sortRecs_sorted l)
  have hrank : (rankRecommendations l).map (·.rank) = List.range' 1 l.length := by
    rw [rankRecommendations, assignRanks_map_rank, sortRecs, List.length_insertionSort]
  refine ⟨by rw [hpi]; exact hsorted, hrank, ?_, ?_⟩
  · intro hperm
    haveI : IsAntisymm ℚ (fun x y : ℚ => y ≤ x) := ⟨fun a b h1 h2 => le_antisymm h2 h1⟩
    have hperm2 : ((rankRecommendations l).map (·.profitability_index)).Perm
        ([2, 13/10, 9/10] : List ℚ) := by
      rw [hpi]
      exact ((sortRecs_perm l).map _).trans hperm
    have htarget : List.Pairwise (fun x y : ℚ => y ≤ x) [2, 13/10, 9/10] := by
      norm_num [List.pairwise_cons]
    have heq := List.eq_of_perm_of_sorted hperm2 (by rw [hpi]; exact hsorted) htarget
    have hlen : l.length = 3 := by
      have := hperm.length_eq
      simpa using this
    exact ⟨heq, by rw [hrank, hlen]; rfl⟩
  · intro hn
    exact List.take_of_length_le (by rw [rankRecommendations_length]; exact hn)

/-- Witness for C8_ranking: profitability indices supplied in the order
[1.3, 2, 0.9], top-N request 5. -/
theorem C8_ranking_witness :
    (recListC8.map (·.profitability_index)).Perm [2, 13/10, 9/10] ∧
    (rankRecommendations recListC8).map (·.profitability_index)
      = [2, 13/10, 9/10] ∧
    (rankRecommendations recListC8).map (·.rank) = [1, 2, 3] ∧
    recListC8.length ≤ 5 ∧
    (rankRecommendations recListC8).take 5 = rankRecommendations recListC8 := by
  have hperm : (recListC8.map (·.profitability_index)).Perm
      ([2, 13/10, 9/10] : List ℚ) := by
    simp only [recListC8, List.map_cons, List.map_nil]
    exact List.Perm.swap _ _ _
  have h := C8_ranking recListC8 5
  exact ⟨hperm, (h.2.2.1 hperm).1, (h.2.2.1 hperm).2, by simp [recListC8],
    h.2.2.2 (by simp [recListC8])⟩

/-- C9, counterexample: the claim says the estimated cost is 80% of the
budget when the historical mean exceeds the budget; the source computes
`min(budget, mean)`, i.e. the full budget in that case.  One Rice/Punjab row
with cost 150000 and budget 100000: the code estimates 100000, the claim
80000. -/
theorem C9_cost_cap_counterexample :
    estimatedCost dfC9 "Rice" "Punjab" 100000 = 100000 ∧
    claimEstimatedCost dfC9 "Rice" "Punjab" 100000 = 80000 ∧
    (100000 : ℚ) ≠ 80000 := by
  refine ⟨?_, ?_, by norm_num⟩
  · simp [estimatedCost, pairRows, dfC9, qMean]
    norm_num
  · simp [claimEstimatedCost, pairRows, dfC9, qMean]
    norm_num

/-- C9 (amended): the estimated cultivation cost is `min(budget, historical
mean cost of the crop/state pair)` when the pair has rows — in particular the
mean itself whenever the mean is at most the budget — and 80% of the
(nonnegative) budget when the pair has no rows. -/
theorem C9_estimated_cost (df : List Row) (crop state : String) (budget : ℚ) :
    (0 < (pairRows df crop state).length →
      estimatedCost df crop state budget
        = min budget (qMean ((pairRows df crop state).map (·.cost)))) ∧
    ((pairRows df crop state).length = 0 → 0 ≤ budget →
      estimatedCost df crop state budget = budget * 0.8) ∧
    (0 < (pairRows df crop state).length →
      qMean ((pairRows df crop state).map (·.cost)) ≤ budget →
      estimatedCost df crop state budget
        = qMean ((pairRows df crop state).map (·.cost))) := by
  refine ⟨fun h => ?_, fun h hb => ?_, fun h h2 => ?_⟩
  · simp only [estimatedCost]
    rw [if_pos h]
  · simp only [estimatedCost]
    rw [if_neg (by omega)]
    refine min_eq_right ?_
    nlinarith
  · simp only [estimatedCost]
    rw [if_pos h]
    exact min_eq_right h2

/-- Witness for C9_estimated_cost: the one-row Rice dataset (cost 50) under
budget 100000. -/
theorem C9_estimated_cost_witness :
    0 < (pairRows dfOneRice "Rice" "Punjab").length ∧
    qMean ((pairRows dfOneRice "Rice" "Punjab").map (·.cost)) ≤ 100000 ∧
    estimatedCost dfOneRice "Rice" "Punjab" 100000
      = qMean ((pairRows dfOneRice "Rice" "Punjab").map (·.cost)) := by
  refine ⟨by simp [pairRows, dfOneRice], ?_, ?_⟩
  · simp [pairRows, dfOneRice, qMean]
    norm_num
  · refine (C9_estimated_cost dfOneRice "Rice" "Punjab" 100000).2.2
      (by simp [pairRows, dfOneRice]) ?_
    simp [pairRows, dfOneRice, qMean]
    norm_num

/-- C10: the recommendation loop iterates over `crops[:10]`, the first ten
distinct crops of the dataset in order of first appearance, so every returned
recommendation's crop lies among those ten, whatever top-N is requested. -/
theorem C10_first_ten_crops (df : List Row) (state season : String) (budget : ℚ)
    (top_n : ℕ) (yieldOf : String → ℚ → ℚ) (r : Recommendation)
    (hr : r ∈ get_recommendations df state season budget top_n yieldOf) :
    r.crop ∈ (uniqueCrops df).take 10 := by
  simp only [get_recommendations] at hr
  have hr1 := List.mem_of_mem_take hr
  have hcrop : r.crop ∈ (rankRecommendations _).map (·.crop) :=
    List.mem_map_of_mem _ hr1
  rw [rankRecommendations, assignRanks_map_crop] at hcrop
  have hcrop2 := ((sortRecs_perm _).map (·.crop)).mem_iff.mp hcrop
  obtain ⟨rec2, hrec2, heq⟩ := List.mem_map.mp hcrop2
  obtain ⟨c, hc, hfc⟩ := List.mem_filterMap.mp hrec2
  have hcc : rec2.crop = c := by
    rcases hcalc : calculate_profitability_index
        (yieldOf c (estimatedCost df c state budget)) (market_prices c)
        (estimatedCost df c state budget) with e | prof
    · rw [hcalc] at hfc
      cases hfc
    · rw [hcalc] at hfc
      simp only [Option.some.injEq] at hfc
      rw [← hfc]
  rw [← heq, hcc]
  exact hc

lemma get_recommendations_dfOneRice_eval :
    get_recommendations dfOneRice "Punjab" "Kharif" 100000 3 (fun _ _ => 50)
      = [{ crop := "Rice", rank := 1, profitability_index := 2000,
           predicted_yield := 50, estimated_cost := 50,
           expected_revenue := 100000, expected_profit := 99950,
           reason := "Highly Profitable - Strongly Recommended" }] := by
  have h1 : uniqueCrops dfOneRice = ["Rice"] := by simp [uniqueCrops, dfOneRice]
  have h3 : estimatedCost dfOneRice "Rice" "Punjab" 100000 = 50 := by
    simp [estimatedCost, pairRows, dfOneRice, qMean]
    norm_num
  have h4 : calculate_profitability_index 50 (market_prices "Rice") 50
      = .ok { profitabilityIndex := 2000, predictedYield := 50,
              unit := "Quintals/Hectare", expectedRevenue := 100000, cost := 50,
              expectedProfit := 99950, profitMargin := 199900,
              recommendation := "Highly Profitable - Strongly Recommended" } := by
    norm_num [calculate_profitability_index, market_prices, round2, roundHalfEven]
  simp only [get_recommendations, h1, List.take, List.filterMap_cons,
    List.filterMap_nil, h3, h4]

/-- Witness for C10_first_ten_crops: the single recommendation computed on
the one-row Rice dataset. -/
theorem C10_first_ten_crops_witness :
    ({ crop := "Rice", rank := 1, profitability_index := 2000,
       predicted_yield := 50, estimated_cost := 50,
       expected_revenue := 100000, expected_profit := 99950,
       reason := "Highly Profitable - Strongly Recommended" } : Recommendation).crop
      ∈ (uniqueCrops dfOneRice).take 10 :=
  C10_first_ten_crops dfOneRice "Punjab" "Kharif" 100000 3 (fun _ _ => 50) _
    (by rw [get_recommendations_dfOneRice_eval]; exact List.mem_singleton_self _)

end CropCore
